import Mathlib

/-!
Verification of the greenwashing-detector repository's natural-language
specification against a shallow embedding of its Python sources.

Strings are modelled as `List Char` so that the Python slicing and
stripping operations of the sources (`str.strip`, `s[7:]`, `s[:-3]`,
`s[:500]`, `startswith`, `endswith`) become ordinary list operations.
JSON values are modelled by the inductive type `Json`; Python's
`json.loads` (an external standard-library routine) is modelled by the
executable recursive-descent parser `json_parse` below, which accepts any
top-level JSON value (object, array, string, integer, literal), exactly as
`json.loads` does.  Diagnostic messages are modelled as plain message
strings (the positional information of Python's messages is dropped) and
the numeric grammar is restricted to integers; no claim depends on either
simplification.
-/

namespace GWD

/-- Left brace character, written via its code point. -/
def lbrace : Char := Char.ofNat 123

/-- Right brace character, written via its code point. -/
def rbrace : Char := Char.ofNat 125

/-- Double-quote character. -/
def dquote : Char := Char.ofNat 34

/-- Backslash character. -/
def bslash : Char := Char.ofNat 92

/-- Python `str.strip` whitespace set: space, tab, newline, carriage
return, vertical tab, form feed. -/
def is_py_space (c : Char) : Bool :=
  c == ' ' || c == '\t' || c == '\n' || c == '\r' || c == '\x0b' || c == '\x0c'

/-- Model of Python `str.lstrip()` on character lists. -/
def py_strip_left (l : List Char) : List Char :=
  l.dropWhile is_py_space

/-- Model of Python `str.rstrip()` on character lists. -/
def py_strip_right (l : List Char) : List Char :=
  (l.reverse.dropWhile is_py_space).reverse

/-- Model of Python `str.strip()` on character lists. -/
def py_strip (l : List Char) : List Char :=
  py_strip_right (py_strip_left l)

/-- Join a list of strings with a separator, model of Python
`sep.join(parts)`. -/
def join_sep (sep : List Char) : List (List Char) → List Char
  | [] => []
  | [x] => x
  | x :: xs => x ++ sep ++ join_sep sep xs

/-- JSON values as decoded by the AI gateway.  Numbers are modelled as
integers (see the header comment). -/
inductive Json where
  | null : Json
  | bool : Bool → Json
  | num : Int → Json
  | str : List Char → Json
  | arr : List Json → Json
  | obj : List (List Char × Json) → Json

/-- Association-list lookup for object members, model of Python `dict`
key lookup (insertion order preserved, keys unique). -/
def jlookup : List (List Char × Json) → List Char → Option Json
  | [], _ => none
  | (k, v) :: rest, key => if k = key then some v else jlookup rest key

/-- Model of Python `d.get(key)` / `key in d`: `none` when the value is
not a dict or the key is absent. -/
def jget (j : Json) (key : List Char) : Option Json :=
  match j with
  | Json.obj kvs => jlookup kvs key
  | _ => none

/-- Model of Python `d.get(key, dflt)`. -/
def jgetD (j : Json) (key : List Char) (dflt : Json) : Json :=
  (jget j key).getD dflt

/-- Insert-or-update of an association list, model of Python
`d[key] = val` (existing key keeps its position, new key appended). -/
def set_assoc : List (List Char × Json) → List Char → Json → List (List Char × Json)
  | [], key, val => [(key, val)]
  | (k, v) :: rest, key, val =>
    if k = key then (k, val) :: rest else (k, v) :: set_assoc rest key val

/-- Model of Python `j[key] = val` on a decoded mapping; other values are
left unchanged. -/
def jset (j : Json) (key : List Char) (val : Json) : Json :=
  match j with
  | Json.obj kvs => Json.obj (set_assoc kvs key val)
  | _ => j

/-- Elements of a decoded array; `[]` for non-arrays. -/
def jarr : Json → List Json
  | Json.arr xs => xs
  | _ => []

/-- Model of Python slicing `x[:k]` applied to a decoded value (strings
and lists are truncated, other values pass through). -/
def jtake (k : Nat) : Json → Json
  | Json.str s => Json.str (s.take k)
  | Json.arr xs => Json.arr (xs.take k)
  | j => j

/-- Model of Python `str(value)` as used inside f-strings for decoded
scalar values (rendering of nested containers is not needed by any claim
and is given a fixed placeholder). -/
def py_str : Json → List Char
  | Json.null => "None".toList
  | Json.bool true => "True".toList
  | Json.bool false => "False".toList
  | Json.num k => (toString k).toList
  | Json.str s => s
  | Json.arr _ => "<list>".toList
  | Json.obj _ => "<dict>".toList

/-- JSON insignificant whitespace skipper used by the parser. -/
def skip_ws (l : List Char) : List Char :=
  l.dropWhile (fun c => c == ' ' || c == '\t' || c == '\n' || c == '\r')

/-- Single-character escape resolution inside JSON strings (the common
escapes; `\\uXXXX` is not modelled, no claim depends on it). -/
def unescape_char (c : Char) : Char :=
  if c = 'n' then '\n'
  else if c = 't' then '\t'
  else if c = 'r' then '\r'
  else if c = 'b' then '\x08'
  else if c = 'f' then '\x0c'
  else c

/-- Parse the body of a JSON string after the opening quote; returns the
content and the remainder after the closing quote, `none` when
unterminated. -/
def parse_string_body : List Char → Option (List Char × List Char)
  | [] => none
  | c :: rest =>
    if c = dquote then some ([], rest)
    else if c = bslash then
      match rest with
      | [] => none
      | e :: rest2 =>
        (parse_string_body rest2).map (fun p => (unescape_char e :: p.1, p.2))
    else (parse_string_body rest).map (fun p => (c :: p.1, p.2))

/-- Value of a digit run. -/
def digits_to_nat (ds : List Char) : Nat :=
  ds.foldl (fun a c => a * 10 + (c.toNat - 48)) 0

/-- Parse a JSON integer (optional minus sign followed by digits). -/
def parse_number (cs : List Char) : Except (List Char) (Json × List Char) :=
  match cs with
  | c :: rest =>
    if c = '-' then
      match rest.span Char.isDigit with
      | ([], _) => Except.error ("Expecting value".toList)
      | (ds, r) => Except.ok (Json.num (-(Int.ofNat (digits_to_nat ds))), r)
    else
      match cs.span Char.isDigit with
      | ([], _) => Except.error ("Expecting value".toList)
      | (ds, r) => Except.ok (Json.num (Int.ofNat (digits_to_nat ds)), r)
  | [] => Except.error ("Expecting value".toList)

/-- Expect the given literal continuation (used for `true`, `false`,
`null`). -/
def expect_lit (lit : List Char) (cs : List Char) (v : Json) :
    Except (List Char) (Json × List Char) :=
  if lit.isPrefixOf cs then Except.ok (v, cs.drop lit.length)
  else Except.error ("Expecting value".toList)

mutual

/-- Fuel-indexed recursive-descent JSON value parser (model of the value
grammar accepted by Python's `json.loads`). -/
def parse_value : Nat → List Char → Except (List Char) (Json × List Char)
  | 0, _ => Except.error ("Too deep".toList)
  | Nat.succ fuel, cs =>
    match cs with
    | [] => Except.error ("Expecting value".toList)
    | c :: rest =>
      if c = lbrace then
        match skip_ws rest with
        | c2 :: rest2 =>
          if c2 = rbrace then Except.ok (Json.obj [], rest2)
          else
            match parse_members fuel (c2 :: rest2) with
            | Except.ok (kvs, r) => Except.ok (Json.obj kvs, r)
            | Except.error e => Except.error e
        | [] => Except.error ("Expecting property name enclosed in double quotes".toList)
      else if c = '[' then
        match skip_ws rest with
        | c2 :: rest2 =>
          if c2 = ']' then Except.ok (Json.arr [], rest2)
          else
            match parse_elements fuel (c2 :: rest2) with
            | Except.ok (xs, r) => Except.ok (Json.arr xs, r)
            | Except.error e => Except.error e
        | [] => Except.error ("Expecting value".toList)
      else if c = dquote then
        match parse_string_body rest with
        | some (s, r) => Except.ok (Json.str s, r)
        | none => Except.error ("Unterminated string".toList)
      else if c = 't' then expect_lit ("rue".toList) rest (Json.bool true)
      else if c = 'f' then expect_lit ("alse".toList) rest (Json.bool false)
      else if c = 'n' then expect_lit ("ull".toList) rest Json.null
      else if c = '-' || c.isDigit then parse_number cs
      else Except.error ("Expecting value".toList)

/-- Comma-separated array elements up to the closing bracket. -/
def parse_elements : Nat → List Char → Except (List Char) (List Json × List Char)
  | 0, _ => Except.error ("Too deep".toList)
  | Nat.succ fuel, cs =>
    match parse_value fuel (skip_ws cs) with
    | Except.error e => Except.error e
    | Except.ok (v, r) =>
      match skip_ws r with
      | c :: r2 =>
        if c = ',' then
          match parse_elements fuel r2 with
          | Except.ok (xs, rr) => Except.ok (v :: xs, rr)
          | Except.error e => Except.error e
        else if c = ']' then Except.ok ([v], r2)
        else Except.error ("Expecting comma delimiter".toList)
      | [] => Except.error ("Expecting comma delimiter".toList)

/-- Comma-separated object members up to the closing brace. -/
def parse_members : Nat → List Char → Except (List Char) (List (List Char × Json) × List Char)
  | 0, _ => Except.error ("Too deep".toList)
  | Nat.succ fuel, cs =>
    match skip_ws cs with
    | c :: rest =>
      if c = dquote then
        match parse_string_body rest with
        | none => Except.error ("Unterminated string".toList)
        | some (k, r) =>
          match skip_ws r with
          | c2 :: r2 =>
            if c2 = ':' then
              match parse_value fuel (skip_ws r2) with
              | Except.error e => Except.error e
              | Except.ok (v, r3) =>
                match skip_ws r3 with
                | c3 :: r4 =>
                  if c3 = ',' then
                    match parse_members fuel r4 with
                    | Except.ok (kvs, rr) => Except.ok ((k, v) :: kvs, rr)
                    | Except.error e => Except.error e
                  else if c3 = rbrace then Except.ok ([(k, v)], r4)
                  else Except.error ("Expecting comma delimiter".toList)
                | [] => Except.error ("Expecting comma delimiter".toList)
            else Except.error ("Expecting colon delimiter".toList)
          | [] => Except.error ("Expecting colon delimiter".toList)
      else Except.error ("Expecting property name enclosed in double quotes".toList)
    | [] => Except.error ("Expecting property name enclosed in double quotes".toList)

end

/-- Model of Python `json.loads`: strict parse of a complete JSON
document (any top-level value), failing on trailing garbage.  The fuel
`2 * length + 2` strictly dominates the recursion depth, so the
`Too deep` branch is unreachable for every input. -/
def json_parse (cs : List Char) : Except (List Char) Json :=
  match parse_value (2 * cs.length + 2) (skip_ws cs) with
  | Except.error e => Except.error e
  | Except.ok (v, rest) =>
    if (skip_ws rest).isEmpty then Except.ok v
    else Except.error ("Extra data".toList)

/-- Leading fence marker annotated as JSON (`ai_handler.py` line 69). -/
def fence_json : List Char := "```json".toList

/-- Generic fence marker (`ai_handler.py` lines 71, 73). -/
def fence : List Char := "```".toList

/-- Backtick character, written via its code point. -/
def btick : Char := Char.ofNat 96

/-- First conditional of the fence stripper (`ai_handler.py` lines
69-70): `if result_text.startswith("```json"): result_text = result_text[7:]`. -/
def strip_leading_json_fence (t : List Char) : List Char :=
  if fence_json.isPrefixOf t then t.drop 7 else t

/-- Second conditional (`ai_handler.py` lines 71-72):
`if result_text.startswith("```"): result_text = result_text[3:]`. -/
def strip_leading_fence (t : List Char) : List Char :=
  if fence.isPrefixOf t then t.drop 3 else t

/-- Third conditional (`ai_handler.py` lines 73-74):
`if result_text.endswith("```"): result_text = result_text[:-3]`. -/
def strip_trailing_fence (t : List Char) : List Char :=
  if fence.isSuffixOf t then t.take (t.length - 3) else t

/-- Fence-stripping step of `AIHandler.analyze_text`
(`ai_handler.py` lines 68-75): strip, drop a leading ```json marker
(7 characters), drop a leading ``` marker (3 characters), drop a
trailing ``` marker (`[:-3]`), strip again. -/
def strip_code_fences (resultText : List Char) : List Char :=
  py_strip (strip_trailing_fence (strip_leading_fence (strip_leading_json_fence (py_strip resultText))))

/-- Error mapping built by the `json.JSONDecodeError` handler of
`AIHandler.analyze_text` (`ai_handler.py` lines 78-84): error kind,
parser diagnostic, and the first 500 characters of the offending
(stripped) text. -/
def decode_error_reply (e raw : List Char) : Json :=
  Json.obj
    [ (("error".toList), Json.str ("JSON解析エラー".toList)),
      (("details".toList), Json.str e),
      (("raw_response".toList), Json.str (raw.take 500)) ]

/-- Decode step of `AIHandler.analyze_text` (`ai_handler.py` lines
66-84): fence stripping followed by `json.loads`; a parse failure is
returned as the error mapping, not raised. -/
def decode_reply (resultText : List Char) : Json :=
  let t := strip_code_fences resultText
  match json_parse t with
  | Except.ok j => j
  | Except.error e => decode_error_reply e t

/-- Error mapping built by the catch-all handler of
`AIHandler.analyze_text` (`ai_handler.py` lines 85-89) for transport
failures (backend unreachable, auth rejected, ...). -/
def api_error_reply (e : List Char) : Json :=
  Json.obj
    [ (("error".toList), Json.str ("API呼び出しエラー".toList)),
      (("details".toList), Json.str e) ]

/-- `AIHandler.analyze_text` (`ai_handler.py` lines 32-89) with the
network call abstracted by its outcome: a successful raw text reply is
decoded, any transport exception is caught and returned as the API error
mapping. -/
def analyze_text (transport : Except (List Char) (List Char)) : Json :=
  match transport with
  | Except.ok resultText => decode_reply resultText
  | Except.error e => api_error_reply e

/-- Modelled from the spec: `modules/text_analyzer.analyze_text_content`
is absent from src/.  Per the spec's Content Adapters description (§2
item 2) it only constructs the instruction and forwards the gateway's
reply, so it is modelled as a passthrough of the gateway outcome. -/
def analyze_text_content (transport : Except (List Char) (List Char)) : Json :=
  analyze_text transport

/-- Value passed by `handle_text_analysis` to `evaluate_result`
(`app.py` lines 323-324): the adapter output, unconditionally. -/
def evaluator_input (transport : Except (List Char) (List Char)) : Json :=
  analyze_text_content transport

/-- Normalized violation record (spec §3). -/
structure Violation where
  category : List Char
  category_name : List Char
  risk_level : List Char
  description : List Char
  evidence : List Char
  points_deducted : Int
deriving DecidableEq

/-- Normalized recommendation record (spec §3). -/
structure Recommendation where
  issue : List Char
  current_expression : List Char
  recommended_expression : List Char
  explanation : List Char
deriving DecidableEq

/-- String-valued field read with default. -/
def get_str_field (j : Json) (key : List Char) (dflt : List Char) : List Char :=
  match jget j key with
  | some (Json.str s) => s
  | _ => dflt

/-- Modelled from the spec: the Violation Normalizer of the missing
`modules/evaluator.py` (spec §4.2 and §3): every subfield is read with
its documented default (`category=""`, `category_name="unknown item"`,
`risk_level="Unknown"`, `description=""`, `evidence=""`,
`points_deducted=0`, non-numeric points coerced to 0) and the points are
clamped to [0, 100] per item. -/
def normalize_violation (j : Json) : Violation :=
  { category := get_str_field j ("category".toList) [],
    category_name := get_str_field j ("category_name".toList) ("unknown item".toList),
    risk_level := get_str_field j ("risk_level".toList) ("Unknown".toList),
    description := get_str_field j ("description".toList) [],
    evidence := get_str_field j ("evidence".toList) [],
    points_deducted :=
      match jget j ("points_deducted".toList) with
      | some (Json.num k) => min 100 (max 0 k)
      | _ => 0 }

/-- Modelled from the spec: order-preserving normalization of the
`violations` entry (spec §4.2). -/
def normalize_violations (vs : List Json) : List Violation :=
  vs.map normalize_violation

/-- Modelled from the spec: normalization of one `recommendations` entry
(spec §3, all fields default to the empty string). -/
def normalize_recommendation (j : Json) : Recommendation :=
  { issue := get_str_field j ("issue".toList) [],
    current_expression := get_str_field j ("current_expression".toList) [],
    recommended_expression := get_str_field j ("recommended_expression".toList) [],
    explanation := get_str_field j ("explanation".toList) [] }

/-- Total deduction over a violation list. -/
def sum_points (vs : List Violation) : Int :=
  (vs.map (fun v => v.points_deducted)).sum

/-- Modelled from the spec: the Score Calculator of the missing
`modules/evaluator.py` (spec §4.3): an explicit score supplied by the
decoded mapping is trusted as-is and the subtraction is skipped;
otherwise the score is `max(0, 100 - Σ points_deducted)`. -/
def calculate_score (explicitScore : Option Int) (vs : List Violation) : Int :=
  match explicitScore with
  | some s => s
  | none => max 0 (100 - sum_points vs)

/-- The four risk tiers (spec §4.4). -/
inductive RiskTier where
  | compliant : RiskTier
  | lowRisk : RiskTier
  | mediumRisk : RiskTier
  | highRisk : RiskTier
deriving DecidableEq

/-- Modelled from the spec: `config.criteria.get_risk_level` is absent
from src/.  Spec §4.4: inclusive lower bounds, first match wins,
evaluated high-to-low (90 Compliant, 70 Low, 40 Medium, else High). -/
def get_risk_level (score : Int) : RiskTier :=
  if 90 ≤ score then RiskTier.compliant
  else if 70 ≤ score then RiskTier.lowRisk
  else if 40 ≤ score then RiskTier.mediumRisk
  else RiskTier.highRisk

/-- Display name of a risk tier (spec §3). -/
def tier_name : RiskTier → List Char
  | RiskTier.compliant => "Compliant".toList
  | RiskTier.lowRisk => "Low Risk".toList
  | RiskTier.mediumRisk => "Medium Risk".toList
  | RiskTier.highRisk => "High Risk".toList

/-- Indicator color of a risk tier (spec §4.4 table). -/
def tier_color : RiskTier → List Char
  | RiskTier.compliant => "green".toList
  | RiskTier.lowRisk => "yellow".toList
  | RiskTier.mediumRisk => "orange".toList
  | RiskTier.highRisk => "red".toList

/-- The core's output record (spec §3): on failure only the error fields
are populated. -/
structure EvalResult where
  success : Bool
  error : List Char
  details : List Char
  overall_risk : List Char
  score : Int
  violations : List Violation
  recommendations : List Recommendation
  summary : List Char

/-- Optional explicit numeric score of a decoded mapping. -/
def explicit_score (decoded : Json) : Option Int :=
  match jget decoded ("score".toList) with
  | some (Json.num k) => some k
  | _ => none

/-- Modelled from the spec: `modules/evaluator.evaluate_result` is
absent from src/.  Spec §4.5 and §7: a mapping carrying an `error` kind
(decode or transport failure) short-circuits into a success=false result
carrying the kind and details; otherwise the violations are normalized
in order, the score is computed by the Calculator (trusting an explicit
`score`), and the tier is the explicit `overall_risk` when present, the
Classifier's tier of the score otherwise. -/
def evaluate_result (decoded : Json) : EvalResult :=
  match jget decoded ("error".toList) with
  | some e =>
    { success := false,
      error := py_str e,
      details := get_str_field decoded ("details".toList) [],
      overall_risk := [], score := 0, violations := [],
      recommendations := [], summary := [] }
  | none =>
    let viols := normalize_violations (jarr (jgetD decoded ("violations".toList) (Json.arr [])))
    let score := calculate_score (explicit_score decoded) viols
    let risk :=
      match jget decoded ("overall_risk".toList) with
      | some (Json.str r) => r
      | _ => tier_name (get_risk_level score)
    { success := true, error := [], details := [],
      overall_risk := risk,
      score := score,
      violations := viols,
      recommendations :=
        (jarr (jgetD decoded ("recommendations".toList) (Json.arr []))).map normalize_recommendation,
      summary := get_str_field decoded ("summary".toList) [] }

/-- Result handed to the caller by `handle_text_analysis`
(`app.py` line 324): the evaluator applied to whatever the gateway
produced. -/
def handle_text_result (transport : Except (List Char) (List Char)) : EvalResult :=
  evaluate_result (evaluator_input transport)

/-- Content sample stored by the text path (`app.py` line 330):
`text_input[:200]`. -/
def text_content_sample (textInput : List Char) : List Char :=
  textInput.take 200

/-- Content sample stored by the image path (`app.py` line 422):
the f-string `画像: (name) | (memo)`, with no truncation. -/
def image_content_sample (fileName memo : List Char) : List Char :=
  "画像: ".toList ++ fileName ++ " | ".toList ++ memo

/-- Content sample stored by the PDF path (`app.py` line 506). -/
def pdf_content_sample (fileName memo : List Char) : List Char :=
  "PDF: ".toList ++ fileName ++ " | ".toList ++ memo

/-- Content sample stored by the video path (`app.py` line 592). -/
def video_content_sample (fileName memo : List Char) : List Char :=
  "動画: ".toList ++ fileName ++ " | ".toList ++ memo

/-- Content sample stored by the web path (`app.py` line 665): the URL,
unmodified. -/
def web_content_sample (url : List Char) : List Char :=
  url

/-- Representative frame indices chosen by `analyze_video_content`
(`video_analyzer.py` line 178): first, middle, last. -/
def representative_indices (n : Nat) : List Nat :=
  [0, n / 2, n - 1]

/-- Error mapping returned when no frame could be extracted
(`video_analyzer.py` lines 171-175). -/
def frame_extract_error : Json :=
  Json.obj
    [ (("error".toList), Json.str ("フレーム抽出失敗".toList)),
      (("details".toList), Json.str ("動画からフレームを抽出できませんでした".toList)) ]

/-- Violations of one frame analysis, each tagged with the analysis'
timestamp (`video_analyzer.py` lines 211-214): absent or non-array
`violations` contribute nothing. -/
def tag_violations (analysis : Json) : List Json :=
  match jget analysis ("violations".toList) with
  | some (Json.arr vs) =>
    vs.map (fun v => jset v ("timestamp".toList) (jgetD analysis ("timestamp".toList) (Json.num 0)))
  | _ => []

/-- Recommendations of one frame analysis
(`video_analyzer.py` lines 215-216). -/
def frame_recommendations (analysis : Json) : List Json :=
  match jget analysis ("recommendations".toList) with
  | some (Json.arr rs) => rs
  | _ => []

/-- Concatenation of the tagged violations of all frame analyses in
frame order (`video_analyzer.py` lines 207-214); no de-duplication. -/
def merged_violations (frameAnalyses : List Json) : List Json :=
  frameAnalyses.foldl (fun acc a => acc ++ tag_violations a) []

/-- Concatenation of the recommendations of all frame analyses
(`video_analyzer.py` lines 215-216). -/
def merged_recommendations (frameAnalyses : List Json) : List Json :=
  frameAnalyses.foldl (fun acc a => acc ++ frame_recommendations a) []

/-- `analyze_video_content` (`video_analyzer.py` lines 153-229) with the
extracted frame list and the per-frame AI call abstracted: frames are
(timestamp, frame data) pairs, `analyzeImage` is the outcome of
`ai_handler.analyze_image` on one frame (an exception is caught and the
frame skipped, lines 199-204).  Each attempted index below the frame
count produces one AI call; successful results are tagged with their
timestamp and merged; the integrated mapping hard-codes
`overall_risk = "Medium Risk"` and `score = 50` (lines 218-227). -/
def analyze_video_content {α : Type} (frames : List (Int × α))
    (analyzeImage : α → Except (List Char) Json) : Json :=
  if frames.isEmpty then frame_extract_error
  else
    let frameAnalyses :=
      (representative_indices frames.length).filterMap (fun idx =>
        match frames[idx]? with
        | none => none
        | some (ts, frameData) =>
          match analyzeImage frameData with
          | Except.ok r => some (jset r ("timestamp".toList) (Json.num ts))
          | Except.error _ => none)
    let allViolations := merged_violations frameAnalyses
    let allRecommendations := merged_recommendations frameAnalyses
    Json.obj
      [ (("overall_risk".toList), Json.str ("Medium Risk".toList)),
        (("score".toList), Json.num 50),
        (("violations".toList), Json.arr allViolations),
        (("recommendations".toList), Json.arr allRecommendations),
        (("summary".toList), Json.str
          ((toString frames.length).toList ++ "フレームを分析。".toList ++
           (toString allViolations.length).toList ++ "件の問題を検出。".toList)),
        (("frame_count".toList), Json.num (Int.ofNat frames.length)),
        (("analyzed_frames".toList), Json.num (Int.ofNat frameAnalyses.length)) ]

/-- One formatted violation entry of the spreadsheet cell
(`sheets_exporter.py` lines 101-104). -/
def format_violation_entry (v : Json) : List Char :=
  "[".toList ++ py_str (jgetD v ("category".toList) (Json.str [])) ++
  "] ".toList ++ py_str (jgetD v ("category_name".toList) (Json.str [])) ++
  ": ".toList ++ py_str (jgetD v ("description".toList) (Json.str [])) ++
  "（減点: ".toList ++ py_str (jgetD v ("points_deducted".toList) (Json.num 0)) ++
  "）".toList

/-- `SheetsExporter._format_violations` (`sheets_exporter.py` lines
94-109): empty list renders the sentinel, otherwise the first 5 entries,
followed by a remainder count when more than 5 exist, joined by
`" | "`. -/
def format_violations (violations : List Json) : List Char :=
  if violations.isEmpty then "なし".toList
  else
    let formatted := (violations.take 5).map format_violation_entry
    let formatted :=
      if 5 < violations.length then
        formatted ++ ["...他".toList ++ (toString (violations.length - 5)).toList ++ "件".toList]
      else formatted
    join_sep (" | ".toList) formatted

/-- One formatted recommendation entry
(`sheets_exporter.py` lines 118-122). -/
def format_recommendation_entry (r : Json) : List Char :=
  py_str (jgetD r ("issue".toList) (Json.str [])) ++ ": ".toList ++
  py_str (jgetD r ("current_expression".toList) (Json.str [])) ++ " → ".toList ++
  py_str (jgetD r ("recommended_expression".toList) (Json.str []))

/-- `SheetsExporter._format_recommendations` (`sheets_exporter.py` lines
111-127): empty list renders the sentinel, otherwise the first 3
entries, followed by a remainder count when more than 3 exist. -/
def format_recommendations (recommendations : List Json) : List Char :=
  if recommendations.isEmpty then "なし".toList
  else
    let formatted := (recommendations.take 3).map format_recommendation_entry
    let formatted :=
      if 3 < recommendations.length then
        formatted ++ ["...他".toList ++ (toString (recommendations.length - 3)).toList ++ "件".toList]
      else formatted
    join_sep (" | ".toList) formatted

/-- The appended spreadsheet row of `SheetsExporter.export_results`
(`sheets_exporter.py` lines 67-80), with the wall-clock timestamp
abstracted as `now`: 11 cells in the source's order. -/
def export_row (now : List Char) (results : Json) : List Json :=
  [ Json.str now,
    jgetD results ("content_type".toList) (Json.str ("不明".toList)),
    jtake 500 (jgetD results ("content_sample".toList) (Json.str [])),
    jgetD results ("directives".toList) (Json.str ("不明".toList)),
    jgetD results ("version".toList) (Json.str ("不明".toList)),
    jgetD results ("overall_risk".toList) (Json.str ("不明".toList)),
    jgetD results ("score".toList) (Json.num 0),
    Json.num (Int.ofNat (jarr (jgetD results ("violations".toList) (Json.arr []))).length),
    Json.str (format_violations (jarr (jgetD results ("violations".toList) (Json.arr [])))),
    Json.str (format_recommendations (jarr (jgetD results ("recommendations".toList) (Json.arr [])))),
    jtake 500 (jgetD results ("summary".toList) (Json.str [])) ]

/-- Escape a character for JSON string serialization (quotes and
backslashes). -/
def ser_escape_char (c : Char) : List Char :=
  if c = dquote then [bslash, dquote]
  else if c = bslash then [bslash, bslash]
  else [c]

/-- Serialize a JSON string with quotes. -/
def ser_str (s : List Char) : List Char :=
  [dquote] ++ s.flatMap ser_escape_char ++ [dquote]

mutual

/-- Standard serialization of a JSON value (used to state the
fence-stripping claim over arbitrary JSON objects). -/
def ser_json : Json → List Char
  | Json.null => "null".toList
  | Json.bool true => "true".toList
  | Json.bool false => "false".toList
  | Json.num k => (toString k).toList
  | Json.str s => ser_str s
  | Json.arr xs => ['['] ++ ser_elements xs ++ [']']
  | Json.obj kvs => [lbrace] ++ ser_members kvs ++ [rbrace]

/-- Comma-separated serialization of array elements. -/
def ser_elements : List Json → List Char
  | [] => []
  | [x] => ser_json x
  | x :: xs => ser_json x ++ [','] ++ ser_elements xs

/-- Comma-separated serialization of object members. -/
def ser_members : List (List Char × Json) → List Char
  | [] => []
  | [(k, v)] => ser_str k ++ [':'] ++ ser_json v
  | (k, v) :: kvs => ser_str k ++ [':'] ++ ser_json v ++ [','] ++ ser_members kvs

end

/-- A reply wrapped in a leading ```json fence and a trailing fence,
with surrounding newline whitespace. -/
def fence_wrap_json (s : List Char) : List Char :=
  "```json\n".toList ++ s ++ "\n```".toList

/-- A reply wrapped in a bare leading fence and a trailing fence. -/
def fence_wrap_bare (s : List Char) : List Char :=
  "```\n".toList ++ s ++ "\n```".toList

/-! Helper lemmas about the list-level string operations. -/

theorem take_length_append (l₁ l₂ : List Char) : (l₁ ++ l₂).take l₁.length = l₁ := by
  induction l₁ with
  | nil => rfl
  | cons a t ih => simp [ih]

theorem drop_length_append (l₁ l₂ : List Char) : (l₁ ++ l₂).drop l₁.length = l₂ := by
  induction l₁ with
  | nil => rfl
  | cons a t ih => simp [ih]

theorem isPrefixOf_cons_cons (a b : Char) (p l : List Char) :
    (a :: p).isPrefixOf (b :: l) = (a == b && p.isPrefixOf l) := rfl

theorem isPrefixOf_self_append (p t : List Char) : p.isPrefixOf (p ++ t) = true := by
  induction p with
  | nil => simp [List.isPrefixOf]
  | cons a as ih => simp [isPrefixOf_cons_cons, ih]

theorem isPrefixOf_cons_false (a b : Char) (p l : List Char) (h : (a == b) = false) :
    (a :: p).isPrefixOf (b :: l) = false := by
  simp [isPrefixOf_cons_cons, h]

theorem isSuffixOf_self_append (p t : List Char) : p.isSuffixOf (t ++ p) = true := by
  simp [List.isSuffixOf, List.reverse_append, isPrefixOf_self_append]

theorem py_strip_left_cons_space (c : Char) (l : List Char) (h : is_py_space c = true) :
    py_strip_left (c :: l) = py_strip_left l := by
  simp [py_strip_left, List.dropWhile_cons, h]

theorem py_strip_left_cons_keep (c : Char) (l : List Char) (h : is_py_space c = false) :
    py_strip_left (c :: l) = c :: l := by
  simp [py_strip_left, List.dropWhile_cons, h]

theorem py_strip_right_append_space (l : List Char) (c : Char) (h : is_py_space c = true) :
    py_strip_right (l ++ [c]) = py_strip_right l := by
  simp [py_strip_right, List.reverse_append, List.dropWhile_cons, h]

theorem py_strip_right_append_keep (l : List Char) (c : Char) (h : is_py_space c = false) :
    py_strip_right (l ++ [c]) = l ++ [c] := by
  simp [py_strip_right, List.reverse_append, List.dropWhile_cons, h]

theorem py_strip_stable (c d : Char) (mid : List Char)
    (hc : is_py_space c = false) (hd : is_py_space d = false) :
    py_strip (c :: (mid ++ [d])) = c :: (mid ++ [d]) := by
  unfold py_strip
  rw [py_strip_left_cons_keep _ _ hc]
  rw [show c :: (mid ++ [d]) = (c :: mid) ++ [d] from rfl]
  rw [py_strip_right_append_keep _ _ hd]

theorem strip_leading_json_fence_append (tail : List Char) :
    strip_leading_json_fence (fence_json ++ tail) = tail := by
  unfold strip_leading_json_fence
  rw [if_pos (isPrefixOf_self_append _ _)]
  exact drop_length_append fence_json tail

theorem strip_leading_fence_append (tail : List Char) :
    strip_leading_fence (fence ++ tail) = tail := by
  unfold strip_leading_fence
  rw [if_pos (isPrefixOf_self_append _ _)]
  exact drop_length_append fence tail

theorem strip_leading_json_fence_no (t : List Char) (h : fence_json.isPrefixOf t = false) :
    strip_leading_json_fence t = t := by
  simp [strip_leading_json_fence, h]

theorem strip_leading_fence_no (t : List Char) (h : fence.isPrefixOf t = false) :
    strip_leading_fence t = t := by
  simp [strip_leading_fence, h]

theorem strip_trailing_fence_append (y : List Char) :
    strip_trailing_fence (y ++ fence) = y := by
  unfold strip_trailing_fence
  rw [if_pos (isSuffixOf_self_append _ _)]
  have hf : fence.length = 3 := rfl
  have hl : (y ++ fence).length - 3 = y.length := by
    simp [List.length_append, hf]
  rw [hl]
  exact take_length_append y fence

theorem strip_trailing_fence_no (t : List Char) (h : fence.isSuffixOf t = false) :
    strip_trailing_fence t = t := by
  simp [strip_trailing_fence, h]

theorem fence_json_not_prefix_nl (x : List Char) :
    fence_json.isPrefixOf ('\n' :: x) = false := by
  exact isPrefixOf_cons_false _ _ _ _ (by decide)

theorem fence_not_prefix_nl (x : List Char) :
    fence.isPrefixOf ('\n' :: x) = false := by
  exact isPrefixOf_cons_false _ _ _ _ (by decide)

theorem fence_json_not_prefix_bare (x : List Char) :
    fence_json.isPrefixOf (btick :: btick :: btick :: '\n' :: x) = false := by
  show (btick :: btick :: btick :: 'j' :: 's' :: 'o' :: 'n' :: []).isPrefixOf _ = false
  have hj : ('j' == '\n') = false := by decide
  simp [isPrefixOf_cons_cons, hj]

theorem fence_json_not_prefix_lbrace (mid : List Char) :
    fence_json.isPrefixOf (lbrace :: mid) = false := by
  exact isPrefixOf_cons_false _ _ _ _ (by decide)

theorem fence_not_prefix_lbrace (mid : List Char) :
    fence.isPrefixOf (lbrace :: mid) = false := by
  exact isPrefixOf_cons_false _ _ _ _ (by decide)

theorem fence_not_suffix_rbrace (mid : List Char) :
    fence.isSuffixOf (lbrace :: (mid ++ [rbrace])) = false := by
  have hrev : (lbrace :: (mid ++ [rbrace])).reverse = rbrace :: (mid.reverse ++ [lbrace]) := by
    simp
  simp only [List.isSuffixOf, hrev]
  exact isPrefixOf_cons_false _ _ _ _ (by decide)

theorem py_strip_nl_wrap (mid : List Char) :
    py_strip ('\n' :: ((lbrace :: (mid ++ [rbrace])) ++ ['\n'])) = lbrace :: (mid ++ [rbrace]) := by
  unfold py_strip
  rw [py_strip_left_cons_space _ _ (by decide)]
  rw [show (lbrace :: (mid ++ [rbrace])) ++ ['\n'] = lbrace :: ((mid ++ [rbrace]) ++ ['\n']) from rfl]
  rw [py_strip_left_cons_keep _ _ (by decide)]
  rw [show lbrace :: ((mid ++ [rbrace]) ++ ['\n']) = (lbrace :: (mid ++ [rbrace])) ++ ['\n'] from rfl]
  rw [py_strip_right_append_space _ _ (by decide)]
  rw [show lbrace :: (mid ++ [rbrace]) = (lbrace :: mid) ++ [rbrace] from rfl]
  rw [py_strip_right_append_keep _ _ (by decide)]

theorem strip_code_fences_obj (mid : List Char) :
    strip_code_fences (lbrace :: (mid ++ [rbrace])) = lbrace :: (mid ++ [rbrace]) := by
  unfold strip_code_fences
  rw [py_strip_stable _ _ _ (by decide) (by decide)]
  rw [strip_leading_json_fence_no _ (fence_json_not_prefix_lbrace _)]
  rw [strip_leading_fence_no _ (fence_not_prefix_lbrace _)]
  rw [strip_trailing_fence_no _ (fence_not_suffix_rbrace _)]
  rw [py_strip_stable _ _ _ (by decide) (by decide)]

theorem strip_code_fences_wrap_json (mid : List Char) :
    strip_code_fences (fence_wrap_json (lbrace :: (mid ++ [rbrace]))) =
      lbrace :: (mid ++ [rbrace]) := by
  have hA : fence_wrap_json (lbrace :: (mid ++ [rbrace])) =
      btick :: ((btick :: btick :: 'j' :: 's' :: 'o' :: 'n' :: '\n' ::
        ((lbrace :: (mid ++ [rbrace])) ++ ('\n' :: btick :: btick :: []))) ++ [btick]) := by
    simp only [fence_wrap_json, List.cons_append, List.append_assoc]
    rfl
  have hstrip : py_strip (fence_wrap_json (lbrace :: (mid ++ [rbrace]))) =
      fence_wrap_json (lbrace :: (mid ++ [rbrace])) := by
    rw [hA]
    exact py_strip_stable _ _ _ (by decide) (by decide)
  unfold strip_code_fences
  rw [hstrip]
  have hB : fence_wrap_json (lbrace :: (mid ++ [rbrace])) =
      fence_json ++ ('\n' :: ((lbrace :: (mid ++ [rbrace])) ++ "\n```".toList)) := rfl
  rw [hB, strip_leading_json_fence_append]
  rw [strip_leading_fence_no _ (fence_not_prefix_nl _)]
  have hC : '\n' :: ((lbrace :: (mid ++ [rbrace])) ++ "\n```".toList) =
      ('\n' :: ((lbrace :: (mid ++ [rbrace])) ++ ['\n'])) ++ fence := by
    simp only [List.cons_append, List.append_assoc]
    rfl
  rw [hC, strip_trailing_fence_append]
  exact py_strip_nl_wrap mid

theorem strip_code_fences_wrap_bare (mid : List Char) :
    strip_code_fences (fence_wrap_bare (lbrace :: (mid ++ [rbrace]))) =
      lbrace :: (mid ++ [rbrace]) := by
  have hA : fence_wrap_bare (lbrace :: (mid ++ [rbrace])) =
      btick :: ((btick :: btick :: '\n' ::
        ((lbrace :: (mid ++ [rbrace])) ++ ('\n' :: btick :: btick :: []))) ++ [btick]) := by
    simp only [fence_wrap_bare, List.cons_append, List.append_assoc]
    rfl
  have hstrip : py_strip (fence_wrap_bare (lbrace :: (mid ++ [rbrace]))) =
      fence_wrap_bare (lbrace :: (mid ++ [rbrace])) := by
    rw [hA]
    exact py_strip_stable _ _ _ (by decide) (by decide)
  unfold strip_code_fences
  rw [hstrip]
  have hB : fence_wrap_bare (lbrace :: (mid ++ [rbrace])) =
      btick :: btick :: btick :: '\n' ::
        ((lbrace :: (mid ++ [rbrace])) ++ "\n```".toList) := rfl
  rw [hB]
  rw [strip_leading_json_fence_no _ (fence_json_not_prefix_bare _)]
  have hD : btick :: btick :: btick :: '\n' ::
      ((lbrace :: (mid ++ [rbrace])) ++ "\n```".toList) =
      fence ++ ('\n' :: ((lbrace :: (mid ++ [rbrace])) ++ "\n```".toList)) := rfl
  rw [hD, strip_leading_fence_append]
  have hC : '\n' :: ((lbrace :: (mid ++ [rbrace])) ++ "\n```".toList) =
      ('\n' :: ((lbrace :: (mid ++ [rbrace])) ++ ['\n'])) ++ fence := by
    simp only [List.cons_append, List.append_assoc]
    rfl
  rw [hC, strip_trailing_fence_append]
  exact py_strip_nl_wrap mid

theorem ser_json_obj_shape (kvs : List (List Char × Json)) :
    ser_json (Json.obj kvs) = lbrace :: (ser_members kvs ++ [rbrace]) := rfl

/-- C1: for every violation list, the Score Calculator (in its fallback
mode, no explicit score supplied) returns `max(0, 100 - Σ
points_deducted)`; the computed score is never negative, and five
violations of 30 points each yield score 0, not -50. -/
theorem claim_c1_score_floor :
    (∀ vs : List Violation, calculate_score none vs = max 0 (100 - sum_points vs)) ∧
    (∀ vs : List Violation, 0 ≤ calculate_score none vs) ∧
    calculate_score none
      (List.replicate 5 ⟨[], [], [], [], [], 30⟩) = 0 :=
  ⟨fun _ => rfl, fun _ => le_max_left 0 _, by decide⟩

/-- C2: the Risk Classifier maps every score in [0,100] to exactly one
tier, with inclusive boundaries evaluated high-to-low: 90-100 Compliant,
70-89 Low Risk, 40-69 Medium Risk, 0-39 High Risk; in particular 90 is
Compliant, 89 and 70 Low Risk, 69 and 40 Medium Risk, 39 and 0 High
Risk. -/
theorem claim_c2_risk_boundaries :
    (∀ s : Int, 0 ≤ s → s ≤ 100 →
      ((get_risk_level s = RiskTier.compliant ↔ 90 ≤ s) ∧
       (get_risk_level s = RiskTier.lowRisk ↔ 70 ≤ s ∧ s < 90) ∧
       (get_risk_level s = RiskTier.mediumRisk ↔ 40 ≤ s ∧ s < 70) ∧
       (get_risk_level s = RiskTier.highRisk ↔ s < 40))) ∧
    get_risk_level 90 = RiskTier.compliant ∧
    get_risk_level 89 = RiskTier.lowRisk ∧
    get_risk_level 70 = RiskTier.lowRisk ∧
    get_risk_level 69 = RiskTier.mediumRisk ∧
    get_risk_level 40 = RiskTier.mediumRisk ∧
    get_risk_level 39 = RiskTier.highRisk ∧
    get_risk_level 0 = RiskTier.highRisk := by
  refine ⟨?_, by decide, by decide, by decide, by decide, by decide, by decide, by decide⟩
  intro s h0 h100
  unfold get_risk_level
  split_ifs with h1 h2 h3 <;>
    refine ⟨?_, ?_, ?_, ?_⟩ <;> simp <;> omega

/-- Witness for C2 at the concrete boundary score 90. -/
theorem claim_c2_risk_boundaries_witness :
    get_risk_level 90 = RiskTier.compliant ↔ (90 : Int) ≤ 90 :=
  (claim_c2_risk_boundaries.1 90 (by decide) (by decide)).1

/-- C3 counterexample: the claim says every input that does not parse as
a JSON *object* yields a failure mapping, and that the stored prefix is
never the full text; but `"5"` parses as a JSON number and is returned
as-is with no error kind, and for the one-character non-JSON input
`"x"` the stored `raw_response` is the entire offending text. -/
theorem claim_c3_counterexample :
    decode_reply ("5".toList) = Json.num 5 ∧
    jget (decode_reply ("5".toList)) ("error".toList) = none ∧
    decode_reply ("x".toList) =
      decode_error_reply ("Expecting value".toList) ("x".toList) ∧
    jget (decode_reply ("x".toList)) ("raw_response".toList) =
      some (Json.str ("x".toList)) :=
  ⟨rfl, rfl, rfl, rfl⟩

/-- C3 amended: for every input string that does not parse as a JSON
document after fence stripping (including empty or whitespace-only
replies), the decode step returns — without raising — a failure mapping
carrying the decode error kind, the parser's diagnostic message, and the
first at-most-500 characters of the offending (stripped) text. -/
theorem claim_c3_decode_failure (s e : List Char)
    (h : json_parse (strip_code_fences s) = Except.error e) :
    decode_reply s = decode_error_reply e (strip_code_fences s) ∧
    ((strip_code_fences s).take 500).length ≤ 500 := by
  constructor
  · simp only [decode_reply]
    rw [h]
  · simp [List.length_take]

/-- Witness for C3 amended: a non-JSON reply and a whitespace-only
reply both produce the bounded failure mapping. -/
theorem claim_c3_decode_failure_witness :
    (decode_reply ("not json at all".toList) =
       decode_error_reply ("Expecting value".toList)
         (strip_code_fences ("not json at all".toList)) ∧
     ((strip_code_fences ("not json at all".toList)).take 500).length ≤ 500) ∧
    (decode_reply ("   ".toList) =
       decode_error_reply ("Expecting value".toList)
         (strip_code_fences ("   ".toList)) ∧
     ((strip_code_fences ("   ".toList)).take 500).length ≤ 500) :=
  ⟨claim_c3_decode_failure _ _ (by rfl), claim_c3_decode_failure _ _ (by rfl)⟩

/-- C4: a decoded mapping that supplies an explicit score is returned
unchanged by the Score Calculator, skipping the subtraction, even when
the subtraction would give a different number; the video analyzer is
such a producer (its integrated mapping carries an explicit score of
50). -/
theorem claim_c4_trust_explicit_score :
    (∀ (v : Int) (vs : List Violation), calculate_score (some v) vs = v) ∧
    (calculate_score (some 50) [⟨[], [], [], [], [], 30⟩] = 50 ∧
     max 0 (100 - sum_points [⟨[], [], [], [], [], 30⟩]) = 70) ∧
    (evaluate_result (Json.obj
      [ (("overall_risk".toList), Json.str ("Medium Risk".toList)),
        (("score".toList), Json.num 50),
        (("violations".toList),
          Json.arr [Json.obj [(("points_deducted".toList), Json.num 30)]]) ])).score = 50 ∧
    jget (analyze_video_content [((0 : Int), (0 : Nat))]
        (fun _ => Except.ok (Json.obj []))) ("score".toList) =
      some (Json.num 50) :=
  ⟨fun _ _ => rfl, ⟨by decide, by decide⟩, rfl, rfl⟩

/-- C5: decoding the serialization of any JSON object wrapped in a
leading ```json (or bare ```) fence and a trailing fence, with
surrounding newline whitespace, yields exactly the same mapping as
decoding the unwrapped serialization. -/
theorem claim_c5_fence_stripping (kvs : List (List Char × Json)) :
    decode_reply (fence_wrap_json (ser_json (Json.obj kvs))) =
      decode_reply (ser_json (Json.obj kvs)) ∧
    decode_reply (fence_wrap_bare (ser_json (Json.obj kvs))) =
      decode_reply (ser_json (Json.obj kvs)) := by
  constructor
  · simp only [decode_reply, ser_json_obj_shape,
      strip_code_fences_wrap_json, strip_code_fences_obj]
  · simp only [decode_reply, ser_json_obj_shape,
      strip_code_fences_wrap_bare, strip_code_fences_obj]

/-- C6 counterexample: on a transport failure the gateway does not
raise; it returns an API-error mapping, and `handle_text_analysis`
passes that mapping to `evaluate_result` unconditionally — so the core
IS invoked with a transport-error value, contradicting the claim that it
is never invoked for such a request. -/
theorem claim_c6_counterexample :
    evaluator_input (Except.error ("Connection error".toList)) =
      api_error_reply ("Connection error".toList) ∧
    jget (evaluator_input (Except.error ("Connection error".toList)))
        ("error".toList) =
      some (Json.str ("API呼び出しエラー".toList)) ∧
    (handle_text_result (Except.error ("Connection error".toList))).success = false :=
  ⟨rfl, rfl, rfl⟩

/-- C6 amended: on every upstream/transport failure the gateway catches
the exception and returns an error mapping of kind API-call-error with
the exception message as details; the handler passes this mapping to the
Result Evaluator, so the core does see the transport-error value and
maps it to a success=false result. -/
theorem claim_c6_transport_error_flow (e : List Char) :
    analyze_text (Except.error e) = api_error_reply e ∧
    evaluator_input (Except.error e) = api_error_reply e ∧
    (handle_text_result (Except.error e)).success = false :=
  ⟨rfl, rfl, rfl⟩

/-- C7: the normalizer preserves violation order exactly ([A, B, C] in
the decoded input produces the corresponding three records in the same
order, also through the assembled result), and the video merge
concatenates the per-frame violations in frame order, tagging each with
its frame's timestamp, with no de-duplication. -/
theorem claim_c7_order_preservation :
    (∀ A B C : Json, normalize_violations [A, B, C] =
      [normalize_violation A, normalize_violation B, normalize_violation C]) ∧
    (∀ A B C : Json,
      (evaluate_result (Json.obj [(("violations".toList), Json.arr [A, B, C])])).violations =
        [normalize_violation A, normalize_violation B, normalize_violation C]) ∧
    (∀ a1 a2 a3 : Json, merged_violations [a1, a2, a3] =
      tag_violations a1 ++ tag_violations a2 ++ tag_violations a3) ∧
    (∀ (vs : List Json) (ts : Int),
      tag_violations (Json.obj
        [ (("violations".toList), Json.arr vs),
          (("timestamp".toList), Json.num ts) ]) =
        vs.map (fun v => jset v ("timestamp".toList) (Json.num ts))) := by
  refine ⟨fun A B C => rfl, fun A B C => rfl, ?_, fun vs ts => rfl⟩
  intro a1 a2 a3
  simp [merged_violations, List.append_assoc]

set_option maxRecDepth 4000 in
/-- C8 counterexample: the image path stores the file name and memo
concatenated with no truncation, and the web path stores the URL
unmodified, so the stored content sample can exceed every display bound
(here: 312 characters for a 300-character memo), contradicting the
claimed 200-character truncation for every content type. -/
theorem claim_c8_counterexample :
    200 < (image_content_sample ("a.png".toList) (List.replicate 300 'x')).length ∧
    web_content_sample (List.replicate 300 'x') = List.replicate 300 'x' :=
  ⟨by decide, rfl⟩

/-- C8 amended: only the text path truncates its stored content sample
(to 200 characters); the image, PDF and video paths store the label,
file name and memo concatenated without truncation, and the web path
stores the URL unmodified. -/
theorem claim_c8_metadata_truncation (t fileName memo url : List Char) :
    text_content_sample t = t.take 200 ∧
    (text_content_sample t).length ≤ 200 ∧
    image_content_sample fileName memo =
      "画像: ".toList ++ fileName ++ " | ".toList ++ memo ∧
    pdf_content_sample fileName memo =
      "PDF: ".toList ++ fileName ++ " | ".toList ++ memo ∧
    video_content_sample fileName memo =
      "動画: ".toList ++ fileName ++ " | ".toList ++ memo ∧
    web_content_sample url = url := by
  refine ⟨rfl, ?_, rfl, rfl, rfl, rfl⟩
  simp [text_content_sample, List.length_take]

/-- C9: for every video with at least one extracted frame, at most three
representative frame indices are sent to the AI backend regardless of
the frame count, and the integrated mapping always carries overall_risk
"Medium Risk" and score 50, independent of the frame analyses. -/
theorem claim_c9_video_integration {α : Type} (frames : List (Int × α))
    (analyzeImage : α → Except (List Char) Json) (h : frames ≠ []) :
    jget (analyze_video_content frames analyzeImage) ("overall_risk".toList) =
      some (Json.str ("Medium Risk".toList)) ∧
    jget (analyze_video_content frames analyzeImage) ("score".toList) =
      some (Json.num 50) ∧
    ((representative_indices frames.length).filter
      (fun i => decide (i < frames.length))).length ≤ 3 := by
  have hne : frames.isEmpty = false := by
    cases frames with
    | nil => exact absurd rfl h
    | cons a t => rfl
  refine ⟨?_, ?_, ?_⟩
  · simp only [analyze_video_content, hne]
    rfl
  · simp only [analyze_video_content, hne]
    rfl
  · exact List.length_filter_le _ _

/-- Witness for C9 at a concrete one-frame video. -/
theorem claim_c9_video_integration_witness :
    jget (analyze_video_content [((0 : Int), (5 : Nat))]
        (fun _ => Except.ok (Json.obj []))) ("overall_risk".toList) =
      some (Json.str ("Medium Risk".toList)) ∧
    jget (analyze_video_content [((0 : Int), (5 : Nat))]
        (fun _ => Except.ok (Json.obj []))) ("score".toList) =
      some (Json.num 50) ∧
    ((representative_indices ([((0 : Int), (5 : Nat))] : List (Int × Nat)).length).filter
      (fun i => decide (i < ([((0 : Int), (5 : Nat))] : List (Int × Nat)).length))).length ≤ 3 :=
  claim_c9_video_integration _ _ (by decide)

/-- C10: the exported spreadsheet row has exactly 11 cells; the content
sample and summary cells are truncated to at most 500 characters; the
violations cell describes at most the first 5 violations and the
recommendations cell at most the first 3, each followed by a count of
the omitted remainder when one exists; empty lists render the fixed
sentinel. -/
theorem claim_c10_export_row :
    (∀ (now : List Char) (results : Json), (export_row now results).length = 11) ∧
    (∀ (now : List Char) (results : Json),
      (export_row now results)[2]? =
        some (jtake 500 (jgetD results ("content_sample".toList) (Json.str []))) ∧
      (export_row now results)[10]? =
        some (jtake 500 (jgetD results ("summary".toList) (Json.str [])))) ∧
    (∀ s : List Char,
      jtake 500 (Json.str s) = Json.str (s.take 500) ∧ (s.take 500).length ≤ 500) ∧
    format_violations [] = "なし".toList ∧
    format_recommendations [] = "なし".toList ∧
    (∀ vs : List Json, 5 < vs.length →
      format_violations vs = join_sep (" | ".toList)
        ((vs.take 5).map format_violation_entry ++
         ["...他".toList ++ (toString (vs.length - 5)).toList ++ "件".toList])) ∧
    (∀ vs : List Json, vs ≠ [] → vs.length ≤ 5 →
      format_violations vs = join_sep (" | ".toList) (vs.map format_violation_entry)) ∧
    (∀ rs : List Json, 3 < rs.length →
      format_recommendations rs = join_sep (" | ".toList)
        ((rs.take 3).map format_recommendation_entry ++
         ["...他".toList ++ (toString (rs.length - 3)).toList ++ "件".toList])) := by
  refine ⟨fun now results => rfl,
          fun now results => ⟨rfl, rfl⟩,
          fun s => ⟨rfl, by simp [List.length_take]⟩,
          rfl, rfl, ?_, ?_, ?_⟩
  · intro vs hlen
    have hne : vs.isEmpty = false := by
      cases vs with
      | nil => simp at hlen
      | cons a t => rfl
    simp only [format_violations, hne, Bool.false_eq_true, if_false, if_pos hlen]
  · intro vs hne hlen
    have hne' : vs.isEmpty = false := by
      cases vs with
      | nil => exact absurd rfl hne
      | cons a t => rfl
    have hnot : ¬ 5 < vs.length := by omega
    simp only [format_violations, hne', Bool.false_eq_true, if_false, if_neg hnot]
    rw [List.take_of_length_le hlen]
  · intro rs hlen
    have hne : rs.isEmpty = false := by
      cases rs with
      | nil => simp at hlen
      | cons a t => rfl
    simp only [format_recommendations, hne, Bool.false_eq_true, if_false, if_pos hlen]

/-- Witness for C10: the three bounded-formatting conjuncts at concrete
lists of 6 violations, 1 violation, and 4 recommendations. -/
theorem claim_c10_export_row_witness :
    format_violations (List.replicate 6 (Json.obj [])) =
      join_sep (" | ".toList)
        (((List.replicate 6 (Json.obj [])).take 5).map format_violation_entry ++
         ["...他".toList ++
          (toString ((List.replicate 6 (Json.obj [])).length - 5)).toList ++ "件".toList]) ∧
    format_violations [Json.obj []] =
      join_sep (" | ".toList) ([Json.obj []].map format_violation_entry) ∧
    format_recommendations (List.replicate 4 (Json.obj [])) =
      join_sep (" | ".toList)
        (((List.replicate 4 (Json.obj [])).take 3).map format_recommendation_entry ++
         ["...他".toList ++
          (toString ((List.replicate 4 (Json.obj [])).length - 3)).toList ++ "件".toList]) :=
  ⟨claim_c10_export_row.2.2.2.2.2.1 _ (by decide),
   claim_c10_export_row.2.2.2.2.2.2.1 _ (List.cons_ne_nil _ _) (by decide),
   claim_c10_export_row.2.2.2.2.2.2.2 _ (by decide)⟩

end GWD
